import Mathlib

set_option autoImplicit false

/-!
Shallow embedding of the Linear ticket adapter
(src/herd_ticket_linear/adapter.py) and of the herd-core data types it
produces.  Mutation inputs are modelled as insertion-ordered association
lists with Python-dict assignment semantics; each adapter operation is
embedded as a pure function from the remote search response (a list of
issue nodes) and mutation outcomes to the list of GraphQL requests it
issues and the value it returns, with raised exceptions as Except errors.
-/

namespace HerdTicketLinear

/-- Universe of field values moved around by the adapter.  The adapter never
inspects these values; it only copies them into mutation inputs, so a small
value universe (Python None, strings, integers, lists of strings) suffices. -/
inductive PyValue where
  | null
  | str (s : String)
  | int (n : Int)
  | strList (xs : List String)
deriving DecidableEq, Repr

/-- A Python dict with string keys, as an insertion-ordered association list. -/
abbrev PyDict := List (String × PyValue)

/-- Python dict assignment `d[k] = v`: replace the value at an existing key in
place, else append the new binding at the end. -/
def dictSet : PyDict → String → PyValue → PyDict
  | [], k, v => [(k, v)]
  | (a, b) :: t, k, v => if a = k then (k, v) :: t else (a, b) :: dictSet t k v

/-- Priority enumeration from herd_core.types (per spec section 3). -/
inductive TicketPriority where
  | NONE
  | URGENT
  | HIGH
  | NORMAL
  | LOW
deriving DecidableEq, Repr

/-- Normalized ticket view from herd_core.types (per spec section 3).
Timestamps are carried as the normalized ISO strings the code hands to the
datetime parser. -/
structure TicketRecord where
  id : String
  title : String
  description : Option String
  status : String
  priority : TicketPriority
  project : Option String
  assignee : Option String
  labels : List String
  created_at : Option String
  modified_at : Option String
deriving DecidableEq, Repr

/-- Outcome of a status transition, from herd_core.types (spec section 3). -/
structure TransitionResult where
  ticket_id : String
  previous_status : String
  new_status : String
  event_type : String
  elapsed_minutes : Option Int
deriving DecidableEq, Repr

/-- A nested object with id and name fields (state, team, project, assignee). -/
structure NamedObj where
  id : Option String
  name : Option String
deriving DecidableEq, Repr

/-- One entry of the nested labels.nodes collection; label["name"] is accessed
unconditionally by the code, so name is mandatory here. -/
structure LabelNode where
  id : Option String
  name : String
deriving DecidableEq, Repr

/-- A Linear issue node as read by _parse_ticket and the search loops.  An
Option field is none when the corresponding key is absent from the JSON
object. -/
structure Issue where
  id : Option String
  identifier : Option String
  title : Option String
  description : Option String
  state : Option NamedObj
  priority : Option Int
  team : Option NamedObj
  project : Option NamedObj
  assignee : Option NamedObj
  labels : Option (List LabelNode)
  createdAt : Option String
  updatedAt : Option String
deriving DecidableEq, Repr

/-- The priority_map dict literal of _parse_ticket
(Linear: 0=None, 1=Urgent, 2=High, 3=Normal, 4=Low). -/
def priority_map : List (Int × TicketPriority) :=
  [(0, TicketPriority.NONE), (1, TicketPriority.URGENT), (2, TicketPriority.HIGH),
   (3, TicketPriority.NORMAL), (4, TicketPriority.LOW)]

/-- priority_map.get(priority_value, TicketPriority.NONE). -/
def parse_priority (v : Int) : TicketPriority :=
  (priority_map.lookup v).getD TicketPriority.NONE

/-- _parse_ticket: convert one Linear issue node into a TicketRecord. -/
def parse_ticket (issue : Issue) : TicketRecord :=
  { id := issue.identifier.getD (issue.id.getD "")
    title := issue.title.getD ""
    description := issue.description
    status := match issue.state with
      | Option.some st => st.name.getD ""
      | Option.none => ""
    priority := parse_priority (issue.priority.getD 0)
    project := match issue.project with
      | Option.some p => p.name
      | Option.none => Option.none
    assignee := match issue.assignee with
      | Option.some a => a.name
      | Option.none => Option.none
    labels := (issue.labels.getD []).map LabelNode.name
    created_at := issue.createdAt.map (fun s => s.replace "Z" "+00:00")
    modified_at := issue.updatedAt.map (fun s => s.replace "Z" "+00:00") }

/-- The character class [0-9a-f-] of the UUID regex in _resolve_state_id. -/
def uuidChar (c : Char) : Bool :=
  "0123456789abcdef-".toList.contains c

/-- Semantics of re.match(r"^[0-9a-f-]{36}$", s) in Python: 36 characters of
the class, anchored at the start; the dollar anchor matches at the end of the
string or just before a newline that ends the string, so a 37-character token
whose last character is a newline also matches. -/
def reMatchUuid (s : String) : Bool :=
  (s.length == 36 && s.toList.all uuidChar) ||
  (s.length == 37 && (s.toList.take 36).all uuidChar &&
    s.toList.getLast? == Option.some (Char.ofNat 10))

/-- The UUID-shaped pattern as the spec words it: 36 characters, each a hex
digit or hyphen. -/
def uuid_shaped_spec (s : String) : Bool :=
  s.length == 36 && s.toList.all uuidChar

/-- A single-quote character, used in the ValueError message text. -/
def sq : String := String.singleton (Char.ofNat 39)

/-- _resolve_state_id: UUID pass-through, else state_mapping lookup, else
ValueError naming the status. -/
def resolve_state_id (state_mapping : List (String × String)) (status : String) :
    Except String String :=
  if reMatchUuid status then Except.ok status
  else
    match state_mapping.lookup status with
    | Option.some v => Except.ok v
    | Option.none =>
        Except.error ("Status " ++ sq ++ status ++ sq ++
          " not found in state_mapping and is not a UUID")

/-- One GraphQL request issued through _graphql_request, at the granularity
the adapter distinguishes them. -/
inductive Request where
  | search (q : String)
  | createIssue (input : PyDict)
  | updateIssue (issueId : String) (input : PyDict)
  | createComment (input : PyDict)
deriving DecidableEq, Repr

/-- Recognizer for comment-creation requests. -/
def Request.isCreateComment : Request → Bool
  | Request.createComment _ => true
  | _ => false

/-- The identifier-match loop shared by update and add_comment: first node
whose identifier equals the ticket id, then its id field (absent id gives
Option.none, exactly as node.get("id") leaves issue_id as None). -/
def findIssueId (nodes : List Issue) (ticket_id : String) : Option String :=
  match nodes.find? (fun n => n.identifier == Option.some ticket_id) with
  | Option.some node => node.id
  | Option.none => Option.none

/-- One `if "<src>" in fields: issue_input["<dst>"] = fields["<src>"]` step of
the update field-name mapping. -/
def addField (src dst : String) (fields input : PyDict) : PyDict :=
  match fields.lookup src with
  | Option.some v => dictSet input dst v
  | Option.none => input

/-- The issue_input built by update from its caller-supplied fields dict:
title, description, priority, labels to labelIds, state_id to stateId,
assignee_id to assigneeId, project_id to projectId, in source order;
no other field is copied. -/
def update_input (fields : PyDict) : PyDict :=
  addField "project_id" "projectId" fields
    (addField "assignee_id" "assigneeId" fields
      (addField "state_id" "stateId" fields
        (addField "labels" "labelIds" fields
          (addField "priority" "priority" fields
            (addField "description" "description" fields
              (addField "title" "title" fields []))))))

/-- update: build the input, search for the issue id by exact identifier
match, raise not-found when the id is missing or falsy, then issue the
update mutation; updateOk is the success flag of the mutation response. -/
def update (nodes : List Issue) (updateOk : Bool) (ticket_id : String)
    (fields : PyDict) : Except String (List Request) :=
  match findIssueId nodes ticket_id with
  | Option.some issue_id =>
      if issue_id = "" then Except.error ("Ticket " ++ ticket_id ++ " not found")
      else if updateOk then
        Except.ok [Request.search ticket_id,
          Request.updateIssue issue_id (update_input fields)]
      else Except.error ("Failed to update ticket " ++ ticket_id)
  | Option.none => Except.error ("Ticket " ++ ticket_id ++ " not found")

/-- Python `team_id or self.team_id`: the default is used when team_id is
None or the empty string (falsy). -/
def pyOrStr : Option String → String → String
  | Option.some t, d => if t = "" then d else t
  | Option.none, d => d

/-- The kwargs pass-through loop of create: add each extra binding whose
value is not None, with dict assignment semantics, in iteration order. -/
def addKwargs : PyDict → PyDict → PyDict
  | input, [] => input
  | input, kv :: rest =>
      addKwargs (if kv.2 = PyValue.null then input else dictSet input kv.1 kv.2) rest

/-- The issue_input built by create: teamId (with falsy-default on team_id)
and title always; description, projectId, labelIds only when the supplied
value is truthy; priority whenever it is not None; then the extra kwargs. -/
def create_input (defaultTeam title : String) (description : Option String)
    (team_id project_id : Option String) (priority : Option Int)
    (labels : Option (List String)) (kwargs : PyDict) : PyDict :=
  let input : PyDict :=
    [("teamId", PyValue.str (pyOrStr team_id defaultTeam)),
     ("title", PyValue.str title)]
  let input := match description with
    | Option.some d => if d = "" then input else dictSet input "description" (PyValue.str d)
    | Option.none => input
  let input := match priority with
    | Option.some p => dictSet input "priority" (PyValue.int p)
    | Option.none => input
  let input := match project_id with
    | Option.some p => if p = "" then input else dictSet input "projectId" (PyValue.str p)
    | Option.none => input
  let input := match labels with
    | Option.some l => if l = [] then input else dictSet input "labelIds" (PyValue.strList l)
    | Option.none => input
  addKwargs input kwargs

/-- add_comment: search for the issue id by exact identifier match, raise
not-found when missing or falsy, then issue the comment-creation mutation
whose input carries issueId and body. -/
def add_comment (nodes : List Issue) (commentOk : Bool) (ticket_id body : String) :
    Except String (List Request) :=
  match findIssueId nodes ticket_id with
  | Option.some issue_id =>
      if issue_id = "" then Except.error ("Ticket " ++ ticket_id ++ " not found")
      else if commentOk then
        Except.ok [Request.search ticket_id,
          Request.createComment [("issueId", PyValue.str issue_id), ("body", PyValue.str body)]]
      else Except.error ("Failed to add comment to ticket " ++ ticket_id)
  | Option.none => Except.error ("Ticket " ++ ticket_id ++ " not found")

/-- get: search, take the first node whose identifier equals ticket_id
exactly, parse it; not-found when no node matches. -/
def get (nodes : List Issue) (ticket_id : String) : Except String TicketRecord :=
  match nodes.find? (fun n => n.identifier == Option.some ticket_id) with
  | Option.some node => Except.ok (parse_ticket node)
  | Option.none => Except.error ("Ticket " ++ ticket_id ++ " not found")

/-- Python truthiness of the blocked_by argument: a non-empty list. -/
def truthyOptList (l : Option (List String)) : Bool :=
  match l with
  | Option.some xs => !xs.isEmpty
  | Option.none => false

/-- The event-type classification at the end of transition. -/
def event_type_of (previous_status to_status : String)
    (blocked_by : Option (List String)) : String :=
  if to_status == "blocked" || truthyOptList blocked_by then "blocked"
  else if previous_status == "blocked" && !(to_status == "blocked") then "unblocked"
  else "status_changed"

/-- The `if note: self.add_comment(ticket_id, note)` step of transition: no
request when note is None or empty (falsy). -/
def note_comment_reqs (nodes : List Issue) (commentOk : Bool) (ticket_id : String)
    (note : Option String) : Except String (List Request) :=
  match note with
  | Option.some n =>
      if n = "" then Except.ok [] else add_comment nodes commentOk ticket_id n
  | Option.none => Except.ok []

/-- transition: fetch the current record (capturing the previous status),
resolve the target status, update the issue state, add the note as a comment
when truthy, then classify the event type.  Returns the request trace in
order together with the TransitionResult; any step raising aborts the rest. -/
def transition (state_mapping : List (String × String)) (nodes : List Issue)
    (updateOk commentOk : Bool) (ticket_id to_status : String)
    (note : Option String) (blocked_by : Option (List String)) :
    Except String (List Request × TransitionResult) :=
  match get nodes ticket_id with
  | Except.error e => Except.error e
  | Except.ok current =>
    match resolve_state_id state_mapping to_status with
    | Except.error e => Except.error e
    | Except.ok state_id =>
      match update nodes updateOk ticket_id [("state_id", PyValue.str state_id)] with
      | Except.error e => Except.error e
      | Except.ok updateReqs =>
        match note_comment_reqs nodes commentOk ticket_id note with
        | Except.error e => Except.error e
        | Except.ok commentReqs =>
          Except.ok (Request.search ticket_id :: (updateReqs ++ commentReqs),
            { ticket_id := ticket_id
              previous_status := current.status
              new_status := to_status
              event_type := event_type_of current.status to_status blocked_by
              elapsed_minutes := Option.none })

/-- The filter arguments of list_tickets that the code recognizes. -/
structure ListFilters where
  status : Option String
  assignee : Option String
  project : Option String
  query : Option String
deriving DecidableEq, Repr

/-- The search term built by list_tickets: key:value fragments for status,
assignee, project, then the free-text query, space-joined; a match-all star
when no fragment was collected. -/
def build_search_query (f : ListFilters) : String :=
  let query_parts : List String := []
  let query_parts := match f.status with
    | Option.some v => query_parts ++ ["status:" ++ v]
    | Option.none => query_parts
  let query_parts := match f.assignee with
    | Option.some v => query_parts ++ ["assignee:" ++ v]
    | Option.none => query_parts
  let query_parts := match f.project with
    | Option.some v => query_parts ++ ["project:" ++ v]
    | Option.none => query_parts
  let query_parts := match f.query with
    | Option.some v => query_parts ++ [v]
    | Option.none => query_parts
  if query_parts.isEmpty then "*" else String.intercalate " " query_parts

/-- The search term as the spec words it: the fragments status:v, assignee:v,
project:v for each present filter plus the free-text query verbatim, joined
with single spaces; the match-all token when no recognized filter is given. -/
def search_term_spec (f : ListFilters) : String :=
  let fragments :=
    (f.status.map (fun v => "status:" ++ v)).toList ++
    (f.assignee.map (fun v => "assignee:" ++ v)).toList ++
    (f.project.map (fun v => "project:" ++ v)).toList ++
    f.query.toList
  if fragments.isEmpty then "*" else String.intercalate " " fragments

/-- list_tickets: one search with the built term; every returned node is
parsed into a TicketRecord. -/
def list_tickets (nodes : List Issue) (f : ListFilters) :
    List Request × List TicketRecord :=
  ([Request.search (build_search_query f)], nodes.map parse_ticket)

/-- One entry of a top-level errors array: its optional message field, and
the Python str() rendering of the whole error object that
e.get("message", str(e)) falls back to; the rendering is carried as data. -/
structure GqlError where
  message : Option String
  pyStr : String
deriving DecidableEq, Repr

/-- The combined message raised by _graphql_request on a top-level errors
array. -/
def graphql_error_message (errors : List GqlError) : String :=
  "Linear GraphQL error: " ++
    String.intercalate "; " (errors.map (fun e => e.message.getD e.pyStr))

/-- The `if "errors" in result` check of _graphql_request: any present errors
key (even an empty array) raises; Option.none models an absent key. -/
def check_errors (errors : Option (List GqlError)) : Except String Unit :=
  match errors with
  | Option.some errs => Except.error (graphql_error_message errs)
  | Option.none => Except.ok ()

/-- A concrete issue node used by the example instantiations below. -/
def exIssue : Issue :=
  { id := Option.some "iid-1"
    identifier := Option.some "T-1"
    title := Option.some "Test"
    description := Option.none
    state := Option.some { id := Option.some "s1", name := Option.some "Backlog" }
    priority := Option.some 0
    team := Option.none
    project := Option.none
    assignee := Option.none
    labels := Option.some []
    createdAt := Option.none
    updatedAt := Option.none }

/-- A concrete search response with a single matching node. -/
def exNodes : List Issue := [exIssue]

/-- A concrete state mapping binding the logical status x to the state id u1. -/
def exMapping : List (String × String) := [("x", "u1")]

/-- The request trace of a successful transition on the example data with no
note: the fetch search, the update search, and the update mutation. -/
def exUpdateReqs : List Request :=
  [Request.search "T-1", Request.search "T-1",
   Request.updateIssue "iid-1" [("stateId", PyValue.str "u1")]]

/-- The TransitionResult of a successful example transition from Backlog to
the logical status x. -/
def exRes : TransitionResult :=
  { ticket_id := "T-1"
    previous_status := "Backlog"
    new_status := "x"
    event_type := "status_changed"
    elapsed_minutes := Option.none }

/-- The request trace of a successful example transition carrying the note
go: fetch search, update search, update mutation, comment search, comment
mutation. -/
def exReqsWithNote : List Request :=
  exUpdateReqs ++
  [Request.search "T-1",
   Request.createComment [("issueId", PyValue.str "iid-1"), ("body", PyValue.str "go")]]

/-- A concrete errors array with two message-bearing entries. -/
def exErrors : List GqlError :=
  [{ message := Option.some "Authentication failed", pyStr := "r1" },
   { message := Option.some "Invalid query", pyStr := "r2" }]

/-- The priority mapping as the spec words it: 0, 1, 2, 3, 4 map to NONE,
URGENT, HIGH, NORMAL, LOW; any other integer and a missing field map to
NONE. -/
def priority_of_int_spec (v : Option Int) : TicketPriority :=
  match v with
  | Option.none => TicketPriority.NONE
  | Option.some n =>
    if n = 0 then TicketPriority.NONE
    else if n = 1 then TicketPriority.URGENT
    else if n = 2 then TicketPriority.HIGH
    else if n = 3 then TicketPriority.NORMAL
    else if n = 4 then TicketPriority.LOW
    else TicketPriority.NONE

theorem lookup_dictSet_self (d : PyDict) (k : String) (v : PyValue) :
    (dictSet d k v).lookup k = Option.some v := by
  induction d with
  | nil => simp [dictSet, List.lookup]
  | cons hd t ih =>
    obtain ⟨a, b⟩ := hd
    by_cases h : a = k
    · subst h
      simp [dictSet, List.lookup]
    · simp only [dictSet, if_neg h, List.lookup]
      rw [show (k == a) = false from beq_eq_false_iff_ne.mpr (Ne.symm h)]
      exact ih

theorem lookup_dictSet_ne (d : PyDict) (k k₂ : String) (v : PyValue)
    (h : k₂ ≠ k) : (dictSet d k v).lookup k₂ = d.lookup k₂ := by
  induction d with
  | nil => simp [dictSet, List.lookup, beq_eq_false_iff_ne.mpr h]
  | cons hd t ih =>
    obtain ⟨a, b⟩ := hd
    by_cases ha : a = k
    · subst ha
      simp only [dictSet, if_pos rfl, List.lookup]
      rw [show (k₂ == a) = false from beq_eq_false_iff_ne.mpr h]
    · simp only [dictSet, if_neg ha, List.lookup]
      cases hk : k₂ == a
      · exact ih
      · rfl

theorem addField_lookup_ne (src dst : String) (fields input : PyDict) (k : String)
    (h : k ≠ dst) : (addField src dst fields input).lookup k = input.lookup k := by
  unfold addField
  cases hv : fields.lookup src with
  | none => rfl
  | some v => exact lookup_dictSet_ne input dst k v h

theorem addField_lookup_self (src dst : String) (fields input : PyDict) (v : PyValue)
    (h : fields.lookup src = Option.some v) :
    (addField src dst fields input).lookup dst = Option.some v := by
  unfold addField
  rw [h]
  exact lookup_dictSet_self input dst v

/-- C3: response parsing maps the priority integer 0 to NONE, 1 to URGENT,
2 to HIGH, 3 to NORMAL, 4 to LOW, and any other integer, as well as a
missing priority field, to NONE. -/
theorem claim_C3_priority_mapping (issue : Issue) :
    (parse_ticket issue).priority = priority_of_int_spec issue.priority := by
  have hp : (parse_ticket issue).priority = parse_priority (issue.priority.getD 0) := rfl
  rw [hp]
  cases issue.priority with
  | none => rfl
  | some n =>
    by_cases h0 : n = 0
    · subst h0; rfl
    by_cases h1 : n = 1
    · subst h1; rfl
    by_cases h2 : n = 2
    · subst h2; rfl
    by_cases h3 : n = 3
    · subst h3; rfl
    by_cases h4 : n = 4
    · subst h4; rfl
    have e0 : (n == (0 : Int)) = false := beq_eq_false_iff_ne.mpr h0
    have e1 : (n == (1 : Int)) = false := beq_eq_false_iff_ne.mpr h1
    have e2 : (n == (2 : Int)) = false := beq_eq_false_iff_ne.mpr h2
    have e3 : (n == (3 : Int)) = false := beq_eq_false_iff_ne.mpr h3
    have e4 : (n == (4 : Int)) = false := beq_eq_false_iff_ne.mpr h4
    simp [parse_priority, priority_map, priority_of_int_spec, List.lookup,
      e0, e1, e2, e3, e4, h0, h1, h2, h3, h4]

/-- C5: get returns the parsed record of the first search-result node whose
identifier equals ticket_id exactly, and fails with not-found if and only if
no returned node has an identifier exactly equal to ticket_id (including a
zero-node result). -/
theorem claim_C5_get_exact_match (nodes : List Issue) (tid : String) :
    (∀ node, nodes.find? (fun n => n.identifier == Option.some tid) = Option.some node →
      get nodes tid = Except.ok (parse_ticket node)) ∧
    (get nodes tid = Except.error ("Ticket " ++ tid ++ " not found") ↔
      ∀ node ∈ nodes, node.identifier ≠ Option.some tid) := by
  unfold get
  cases hf : nodes.find? (fun n => n.identifier == Option.some tid) with
  | some node =>
    constructor
    · intro n hn
      cases hn
      rfl
    · apply iff_of_false
      · simp
      · intro hall
        have hmem := List.mem_of_find?_eq_some hf
        have hp := List.find?_some hf
        rw [beq_iff_eq] at hp
        exact hall node hmem hp
  | none =>
    constructor
    · intro n hn
      exact absurd hn (by simp)
    · apply iff_of_true rfl
      intro node hmem
      have hfalse := List.find?_eq_none.mp hf node hmem
      simpa using hfalse

/-- C5 witness: on the example response, get returns the parsed matching
node for T-1 and fails with not-found for T-9. -/
theorem claim_C5_witness :
    get exNodes "T-1" = Except.ok (parse_ticket exIssue) ∧
    get exNodes "T-9" = Except.error ("Ticket " ++ "T-9" ++ " not found") :=
  ⟨(claim_C5_get_exact_match exNodes "T-1").1 exIssue rfl,
   (claim_C5_get_exact_match exNodes "T-9").2.mpr (by decide)⟩

/-- C6: list_tickets performs one search whose term joins, with single
spaces, the fragments for each present filter plus the free-text query,
defaulting to the match-all token, and parses every node of the response. -/
theorem claim_C6_list_tickets (nodes : List Issue) (f : ListFilters) :
    list_tickets nodes f =
      ([Request.search (search_term_spec f)], nodes.map parse_ticket) := by
  obtain ⟨st, asg, pr, qu⟩ := f
  cases st <;> cases asg <;> cases pr <;> cases qu <;> rfl

/-- C9: any present top-level errors array fails the request, and when every
error carries a message field the failure message joins those messages with
a semicolon separator. -/
theorem claim_C9_graphql_errors (errs : List GqlError) :
    (∃ m, check_errors (Option.some errs) = Except.error m) ∧
    (∀ msgs : List String, errs.map GqlError.message = msgs.map Option.some →
      check_errors (Option.some errs) =
        Except.error ("Linear GraphQL error: " ++ String.intercalate "; " msgs)) := by
  constructor
  · exact ⟨graphql_error_message errs, rfl⟩
  · intro msgs h
    have hmap : errs.map (fun e => e.message.getD e.pyStr) = msgs := by
      induction errs generalizing msgs with
      | nil =>
        cases msgs with
        | nil => rfl
        | cons m mt => simp at h
      | cons e t ih =>
        cases msgs with
        | nil => simp at h
        | cons m mt =>
          simp only [List.map, List.cons.injEq] at h
          obtain ⟨h1, h2⟩ := h
          simp only [List.map]
          rw [h1, Option.getD_some, ih mt h2]
    simp [check_errors, graphql_error_message, hmap]

/-- C9 witness: two errors with messages fail with the two messages joined
by the semicolon separator. -/
theorem claim_C9_witness :
    check_errors (Option.some exErrors) =
      Except.error ("Linear GraphQL error: " ++
        String.intercalate "; " ["Authentication failed", "Invalid query"]) :=
  (claim_C9_graphql_errors exErrors).2 ["Authentication failed", "Invalid query"] rfl

theorem lookup_cons_of_ne (k a : String) (v : PyValue) (d : PyDict) (h : k ≠ a) :
    List.lookup k ((a, v) :: d) = List.lookup k d := by
  simp [List.lookup, beq_eq_false_iff_ne.mpr h]

theorem update_ok_shape (nodes : List Issue) (uOk : Bool) (tid : String)
    (fields : PyDict) (reqs : List Request)
    (h : update nodes uOk tid fields = Except.ok reqs) :
    ∃ issue_id, findIssueId nodes tid = Option.some issue_id ∧ issue_id ≠ "" ∧
      uOk = true ∧
      reqs = [Request.search tid, Request.updateIssue issue_id (update_input fields)] := by
  unfold update at h
  cases hf : findIssueId nodes tid with
  | none => rw [hf] at h; exact absurd h (by simp)
  | some iid =>
    simp only [hf] at h
    by_cases hiid : iid = ""
    · rw [if_pos hiid] at h; exact absurd h (by simp)
    · rw [if_neg hiid] at h
      cases uOk with
      | false => simp at h
      | true =>
        rw [if_pos rfl] at h
        injection h with h
        exact ⟨iid, rfl, hiid, rfl, h.symm⟩

theorem add_comment_ok_shape (nodes : List Issue) (cOk : Bool) (tid body : String)
    (reqs : List Request) (h : add_comment nodes cOk tid body = Except.ok reqs) :
    ∃ issue_id, findIssueId nodes tid = Option.some issue_id ∧ issue_id ≠ "" ∧
      cOk = true ∧
      reqs = [Request.search tid,
        Request.createComment [("issueId", PyValue.str issue_id),
          ("body", PyValue.str body)]] := by
  unfold add_comment at h
  cases hf : findIssueId nodes tid with
  | none => rw [hf] at h; exact absurd h (by simp)
  | some iid =>
    simp only [hf] at h
    by_cases hiid : iid = ""
    · rw [if_pos hiid] at h; exact absurd h (by simp)
    · rw [if_neg hiid] at h
      cases cOk with
      | false => simp at h
      | true =>
        rw [if_pos rfl] at h
        injection h with h
        exact ⟨iid, rfl, hiid, rfl, h.symm⟩

theorem event_type_of_eq (prev tgt : String) (b : Option (List String)) :
    event_type_of prev tgt b =
      (if tgt = "blocked" ∨ truthyOptList b = true then "blocked"
       else if prev = "blocked" ∧ tgt ≠ "blocked" then "unblocked"
       else "status_changed") := by
  unfold event_type_of
  by_cases h1 : tgt = "blocked"
  · simp [h1]
  · by_cases h2 : truthyOptList b = true
    · simp [h1, h2]
    · by_cases h3 : prev = "blocked"
      · simp [h1, h2, h3]
      · simp [h1, h2, h3]

theorem addField_lookup_dst (src dst : String) (fields input : PyDict)
    (hin : input.lookup dst = Option.none) :
    (addField src dst fields input).lookup dst = fields.lookup src := by
  unfold addField
  cases hv : fields.lookup src with
  | none => exact hin
  | some v => exact lookup_dictSet_self input dst v

theorem addKwargs_lookup_not_mem (kwargs : PyDict) :
    ∀ (input : PyDict) (k : String), k ∉ kwargs.map Prod.fst →
      (addKwargs input kwargs).lookup k = input.lookup k := by
  induction kwargs with
  | nil => intro input k _; rfl
  | cons kv rest ih =>
    intro input k h
    simp only [List.map, List.mem_cons, not_or] at h
    obtain ⟨hk, hrest⟩ := h
    unfold addKwargs
    by_cases hn : kv.2 = PyValue.null
    · rw [if_pos hn]
      exact ih input k (by simpa using hrest)
    · rw [if_neg hn]
      rw [ih _ k (by simpa using hrest)]
      exact lookup_dictSet_ne input kv.1 k kv.2 hk

theorem addKwargs_lookup_mem (kwargs : PyDict) :
    ∀ (input : PyDict) (k : String) (v : PyValue),
      (kwargs.map Prod.fst).Nodup → (k, v) ∈ kwargs → v ≠ PyValue.null →
      (addKwargs input kwargs).lookup k = Option.some v := by
  induction kwargs with
  | nil =>
    intro input k v _ hmem _
    cases hmem
  | cons kv rest ih =>
    intro input k v hnd hmem hv
    simp only [List.map, List.nodup_cons] at hnd
    obtain ⟨hk0, hrest⟩ := hnd
    unfold addKwargs
    rcases List.mem_cons.mp hmem with heq | hmem2
    · cases heq
      rw [if_neg hv]
      rw [addKwargs_lookup_not_mem rest _ k (by simpa using hk0)]
      exact lookup_dictSet_self input k v
    · by_cases hn : kv.2 = PyValue.null
      · rw [if_pos hn]
        exact ih input k v hrest hmem2 hv
      · rw [if_neg hn]
        exact ih _ k v hrest hmem2 hv

/-- C4 counterexample: an unrecognized field given to update is dropped from
the mutation input rather than passed through, and an extra create field
whose value is None is likewise dropped. -/
theorem claim_C4_counterexample :
    update_input [("foo", PyValue.str "bar")] = [] ∧
    (update_input [("foo", PyValue.str "bar")]).lookup "foo" = Option.none ∧
    (create_input "dt" "t" Option.none Option.none Option.none Option.none Option.none
        [("custom", PyValue.null)]).lookup "custom" = Option.none :=
  ⟨rfl, rfl, rfl⟩

/-- C4 (amended): in create, every caller-supplied extra field whose value is
not None is passed through into the creation input unchanged, and extra
fields whose value is None are dropped; in update, every field outside the
recognized set is dropped — the update input holds no key beyond the seven
mapped remote names. -/
theorem claim_C4_extra_fields (defaultTeam title : String)
    (description team_id project_id : Option String) (priority : Option Int)
    (labels : Option (List String)) (kwargs : PyDict)
    (hkeys : (kwargs.map Prod.fst).Nodup) :
    (∀ k v, (k, v) ∈ kwargs → v ≠ PyValue.null →
      (create_input defaultTeam title description team_id project_id priority labels
        kwargs).lookup k = Option.some v) ∧
    (∀ fields : PyDict, ∀ k, k ∉ (["title", "description", "priority", "labelIds",
        "stateId", "assigneeId", "projectId"] : List String) →
      (update_input fields).lookup k = Option.none) := by
  constructor
  · intro k v hmem hv
    exact addKwargs_lookup_mem kwargs _ k v hkeys hmem hv
  · intro fields k hk
    simp only [List.mem_cons, List.not_mem_nil, or_false, not_or] at hk
    obtain ⟨n1, n2, n3, n4, n5, n6, n7⟩ := hk
    unfold update_input
    rw [addField_lookup_ne "project_id" "projectId" fields _ k n7,
        addField_lookup_ne "assignee_id" "assigneeId" fields _ k n6,
        addField_lookup_ne "state_id" "stateId" fields _ k n5,
        addField_lookup_ne "labels" "labelIds" fields _ k n4,
        addField_lookup_ne "priority" "priority" fields _ k n3,
        addField_lookup_ne "description" "description" fields _ k n2,
        addField_lookup_ne "title" "title" fields _ k n1]
    rfl

/-- C4 witness: a non-None extra create field appears unchanged in the
creation input, and an unrecognized update field is absent from the update
input. -/
theorem claim_C4_witness :
    (create_input "dt" "t" Option.none Option.none Option.none Option.none Option.none
        [("customField", PyValue.str "v"), ("other", PyValue.null)]).lookup "customField" =
      Option.some (PyValue.str "v") ∧
    (update_input [("notes", PyValue.str "bar")]).lookup "notes" = Option.none :=
  ⟨(claim_C4_extra_fields "dt" "t" Option.none Option.none Option.none Option.none
      Option.none [("customField", PyValue.str "v"), ("other", PyValue.null)]
      (by decide)).1 "customField" (PyValue.str "v") (by decide) (by decide),
   (claim_C4_extra_fields "dt" "t" Option.none Option.none Option.none Option.none
      Option.none [] (by decide)).2 [("notes", PyValue.str "bar")] "notes" (by decide)⟩

/-- The recognized update fields all supplied at once, used by the C7
witness. -/
def exFields : PyDict :=
  [("title", PyValue.str "X"), ("description", PyValue.str "D"),
   ("priority", PyValue.int 1), ("labels", PyValue.strList ["l1", "l2"]),
   ("state_id", PyValue.str "S"), ("assignee_id", PyValue.str "A"),
   ("project_id", PyValue.str "P")]

/-- C7: a successful update issues a search then an update mutation whose
input is built by the field-name mapping, and that mapping carries each
caller field to its remote schema name with the caller value unchanged:
title, description and priority keep their names, labels becomes labelIds,
state_id becomes stateId, assignee_id becomes assigneeId and project_id
becomes projectId. -/
theorem claim_C7_update_field_mapping (nodes : List Issue) (uOk : Bool)
    (tid : String) (fields : PyDict) :
    (∀ reqs, update nodes uOk tid fields = Except.ok reqs →
      ∃ issue_id, reqs = [Request.search tid,
        Request.updateIssue issue_id (update_input fields)]) ∧
    (update_input fields).lookup "title" = fields.lookup "title" ∧
    (update_input fields).lookup "description" = fields.lookup "description" ∧
    (update_input fields).lookup "priority" = fields.lookup "priority" ∧
    (update_input fields).lookup "labelIds" = fields.lookup "labels" ∧
    (update_input fields).lookup "stateId" = fields.lookup "state_id" ∧
    (update_input fields).lookup "assigneeId" = fields.lookup "assignee_id" ∧
    (update_input fields).lookup "projectId" = fields.lookup "project_id" := by
  refine ⟨?_, ?_, ?_, ?_, ?_, ?_, ?_, ?_⟩
  · intro reqs h
    obtain ⟨iid, _, _, _, hshape⟩ := update_ok_shape nodes uOk tid fields reqs h
    exact ⟨iid, hshape⟩
  all_goals unfold update_input
  · rw [addField_lookup_ne "project_id" "projectId" fields _ "title" (by decide),
        addField_lookup_ne "assignee_id" "assigneeId" fields _ "title" (by decide),
        addField_lookup_ne "state_id" "stateId" fields _ "title" (by decide),
        addField_lookup_ne "labels" "labelIds" fields _ "title" (by decide),
        addField_lookup_ne "priority" "priority" fields _ "title" (by decide),
        addField_lookup_ne "description" "description" fields _ "title" (by decide)]
    exact addField_lookup_dst "title" "title" fields [] rfl
  · rw [addField_lookup_ne "project_id" "projectId" fields _ "description" (by decide),
        addField_lookup_ne "assignee_id" "assigneeId" fields _ "description" (by decide),
        addField_lookup_ne "state_id" "stateId" fields _ "description" (by decide),
        addField_lookup_ne "labels" "labelIds" fields _ "description" (by decide),
        addField_lookup_ne "priority" "priority" fields _ "description" (by decide)]
    refine addField_lookup_dst "description" "description" fields _ ?_
    rw [addField_lookup_ne "title" "title" fields _ "description" (by decide)]
    rfl
  · rw [addField_lookup_ne "project_id" "projectId" fields _ "priority" (by decide),
        addField_lookup_ne "assignee_id" "assigneeId" fields _ "priority" (by decide),
        addField_lookup_ne "state_id" "stateId" fields _ "priority" (by decide),
        addField_lookup_ne "labels" "labelIds" fields _ "priority" (by decide)]
    refine addField_lookup_dst "priority" "priority" fields _ ?_
    rw [addField_lookup_ne "description" "description" fields _ "priority" (by decide),
        addField_lookup_ne "title" "title" fields _ "priority" (by decide)]
    rfl
  · rw [addField_lookup_ne "project_id" "projectId" fields _ "labelIds" (by decide),
        addField_lookup_ne "assignee_id" "assigneeId" fields _ "labelIds" (by decide),
        addField_lookup_ne "state_id" "stateId" fields _ "labelIds" (by decide)]
    refine addField_lookup_dst "labels" "labelIds" fields _ ?_
    rw [addField_lookup_ne "priority" "priority" fields _ "labelIds" (by decide),
        addField_lookup_ne "description" "description" fields _ "labelIds" (by decide),
        addField_lookup_ne "title" "title" fields _ "labelIds" (by decide)]
    rfl
  · rw [addField_lookup_ne "project_id" "projectId" fields _ "stateId" (by decide),
        addField_lookup_ne "assignee_id" "assigneeId" fields _ "stateId" (by decide)]
    refine addField_lookup_dst "state_id" "stateId" fields _ ?_
    rw [addField_lookup_ne "labels" "labelIds" fields _ "stateId" (by decide),
        addField_lookup_ne "priority" "priority" fields _ "stateId" (by decide),
        addField_lookup_ne "description" "description" fields _ "stateId" (by decide),
        addField_lookup_ne "title" "title" fields _ "stateId" (by decide)]
    rfl
  · rw [addField_lookup_ne "project_id" "projectId" fields _ "assigneeId" (by decide)]
    refine addField_lookup_dst "assignee_id" "assigneeId" fields _ ?_
    rw [addField_lookup_ne "state_id" "stateId" fields _ "assigneeId" (by decide),
        addField_lookup_ne "labels" "labelIds" fields _ "assigneeId" (by decide),
        addField_lookup_ne "priority" "priority" fields _ "assigneeId" (by decide),
        addField_lookup_ne "description" "description" fields _ "assigneeId" (by decide),
        addField_lookup_ne "title" "title" fields _ "assigneeId" (by decide)]
    rfl
  · refine addField_lookup_dst "project_id" "projectId" fields _ ?_
    rw [addField_lookup_ne "assignee_id" "assigneeId" fields _ "projectId" (by decide),
        addField_lookup_ne "state_id" "stateId" fields _ "projectId" (by decide),
        addField_lookup_ne "labels" "labelIds" fields _ "projectId" (by decide),
        addField_lookup_ne "priority" "priority" fields _ "projectId" (by decide),
        addField_lookup_ne "description" "description" fields _ "projectId" (by decide),
        addField_lookup_ne "title" "title" fields _ "projectId" (by decide)]
    rfl

/-- C7 witness: on the example response, updating with all seven recognized
fields succeeds with a search followed by the mapped update mutation. -/
theorem claim_C7_witness :
    ∃ issue_id,
      [Request.search "T-1", Request.updateIssue "iid-1" (update_input exFields)] =
        [Request.search "T-1", Request.updateIssue issue_id (update_input exFields)] :=
  (claim_C7_update_field_mapping exNodes true "T-1" exFields).1
    [Request.search "T-1", Request.updateIssue "iid-1" (update_input exFields)] rfl

theorem addKwargs_filter_null (kwargs : PyDict) :
    ∀ input, addKwargs input kwargs =
      addKwargs input (kwargs.filter (fun kv => decide (kv.2 ≠ PyValue.null))) := by
  induction kwargs with
  | nil => intro input; rfl
  | cons kv rest ih =>
    intro input
    by_cases hn : kv.2 = PyValue.null
    · have hL : addKwargs input (kv :: rest) = addKwargs input rest := by
        show addKwargs (if kv.2 = PyValue.null then input else dictSet input kv.1 kv.2)
          rest = _
        rw [if_pos hn]
      have hR : (kv :: rest).filter (fun kv => decide (kv.2 ≠ PyValue.null)) =
          rest.filter (fun kv => decide (kv.2 ≠ PyValue.null)) := by
        simp [List.filter_cons, hn]
      rw [hL, hR]
      exact ih input
    · have hL : addKwargs input (kv :: rest) =
          addKwargs (dictSet input kv.1 kv.2) rest := by
        show addKwargs (if kv.2 = PyValue.null then input else dictSet input kv.1 kv.2)
          rest = _
        rw [if_neg hn]
      have hR : (kv :: rest).filter (fun kv => decide (kv.2 ≠ PyValue.null)) =
          kv :: rest.filter (fun kv => decide (kv.2 ≠ PyValue.null)) := by
        simp [List.filter_cons, hn]
      rw [hL, hR]
      show _ = addKwargs
        (if kv.2 = PyValue.null then input else dictSet input kv.1 kv.2)
        (rest.filter (fun kv => decide (kv.2 ≠ PyValue.null)))
      rw [if_neg hn]
      exact ih (dictSet input kv.1 kv.2)

/-- C8 counterexample: a transition given the note "" (a note was supplied,
but it is falsy) succeeds without issuing any comment-creation mutation. -/
theorem claim_C8_counterexample :
    (transition exMapping exNodes true true "T-1" "x" (Option.some "") Option.none).map
        (fun p => p.1.all (fun r => !(r.isCreateComment))) = Except.ok true ∧
    (Option.some "" : Option String) ≠ Option.none :=
  ⟨rfl, by decide⟩

/-- C8 (amended): for every successful call to transition in which a
non-empty note is given, the request trace contains a comment-creation
mutation carrying that note as its body, at a position after the
state-update mutation. -/
theorem claim_C8_note_comment (state_mapping : List (String × String))
    (nodes : List Issue) (uOk cOk : Bool) (tid to_status n : String)
    (blocked_by : Option (List String)) (reqs : List Request)
    (res : TransitionResult) (hn : n ≠ "")
    (h : transition state_mapping nodes uOk cOk tid to_status (Option.some n)
      blocked_by = Except.ok (reqs, res)) :
    ∃ (i j : Nat) (issue_id : String) (uinput cinput : PyDict), i < j ∧
      reqs[i]? = Option.some (Request.updateIssue issue_id uinput) ∧
      reqs[j]? = Option.some (Request.createComment cinput) ∧
      cinput.lookup "body" = Option.some (PyValue.str n) := by
  unfold transition at h
  cases hg : get nodes tid with
  | error e => rw [hg] at h; exact absurd h (by simp)
  | ok current =>
    simp only [hg] at h
    cases hr : resolve_state_id state_mapping to_status with
    | error e => rw [hr] at h; exact absurd h (by simp)
    | ok sid =>
      simp only [hr] at h
      cases hu : update nodes uOk tid [("state_id", PyValue.str sid)] with
      | error e => rw [hu] at h; exact absurd h (by simp)
      | ok ureqs =>
        simp only [hu] at h
        cases hc : note_comment_reqs nodes cOk tid (Option.some n) with
        | error e => rw [hc] at h; exact absurd h (by simp)
        | ok creqs =>
          simp only [hc] at h
          injection h with h
          rw [Prod.mk.injEq] at h
          obtain ⟨hreqs, hres⟩ := h
          obtain ⟨iid, hfi, hiid, huOk, hushape⟩ :=
            update_ok_shape nodes uOk tid [("state_id", PyValue.str sid)] ureqs hu
          simp only [note_comment_reqs] at hc
          rw [if_neg hn] at hc
          obtain ⟨cid, hfc, hcid, hcOk, hcshape⟩ :=
            add_comment_ok_shape nodes cOk tid n creqs hc
          subst hushape
          subst hcshape
          subst hreqs
          refine ⟨2, 4, iid, update_input [("state_id", PyValue.str sid)],
            [("issueId", PyValue.str cid), ("body", PyValue.str n)],
            by omega, rfl, rfl, rfl⟩

/-- C8 witness: transitioning the example ticket with the note go issues the
comment-creation mutation with body go after the update mutation. -/
theorem claim_C8_witness :
    ∃ (i j : Nat) (issue_id : String) (uinput cinput : PyDict), i < j ∧
      exReqsWithNote[i]? = Option.some (Request.updateIssue issue_id uinput) ∧
      exReqsWithNote[j]? = Option.some (Request.createComment cinput) ∧
      cinput.lookup "body" = Option.some (PyValue.str "go") :=
  claim_C8_note_comment exMapping exNodes true true "T-1" "x" "go" Option.none
    exReqsWithNote exRes (by decide) rfl

/-- C10: create omits an optional field whenever its supplied value is falsy,
not only when it is absent — a supplied empty description, empty project_id
or empty labels list is dropped from the creation input, a supplied priority
is kept whenever it is not None (including 0) and omitted when it is None,
and extra keyword fields whose value is None are dropped. -/
theorem claim_C10_create_falsy_omission :
    (∀ defaultTeam title team_id project_id priority labels,
      (create_input defaultTeam title (Option.some "") team_id project_id priority
        labels []).lookup "description" = Option.none) ∧
    (∀ defaultTeam title description team_id priority labels,
      (create_input defaultTeam title description team_id (Option.some "") priority
        labels []).lookup "projectId" = Option.none) ∧
    (∀ defaultTeam title description team_id project_id priority,
      (create_input defaultTeam title description team_id project_id priority
        (Option.some []) []).lookup "labelIds" = Option.none) ∧
    (∀ defaultTeam title description team_id project_id labels p,
      (create_input defaultTeam title description team_id project_id (Option.some p)
        labels []).lookup "priority" = Option.some (PyValue.int p)) ∧
    (∀ defaultTeam title description team_id project_id labels,
      (create_input defaultTeam title description team_id project_id Option.none
        labels []).lookup "priority" = Option.none) ∧
    (∀ defaultTeam title description team_id project_id priority labels kwargs,
      create_input defaultTeam title description team_id project_id priority labels
          kwargs =
        create_input defaultTeam title description team_id project_id priority labels
          (kwargs.filter (fun kv => decide (kv.2 ≠ PyValue.null)))) := by
  refine ⟨?_, ?_, ?_, ?_, ?_, ?_⟩
  · intro dt t tid pid pr lb
    cases pr <;> cases pid <;> cases lb <;>
      (simp only [create_input, addKwargs]
       first
       | (split_ifs <;> simp_all [dictSet, List.lookup])
       | simp_all [dictSet, List.lookup])
  · intro dt t d tid pr lb
    cases d <;> cases pr <;> cases lb <;>
      (simp only [create_input, addKwargs]
       first
       | (split_ifs <;> simp_all [dictSet, List.lookup])
       | simp_all [dictSet, List.lookup])
  · intro dt t d tid pid pr
    cases d <;> cases pr <;> cases pid <;>
      (simp only [create_input, addKwargs]
       first
       | (split_ifs <;> simp_all [dictSet, List.lookup])
       | simp_all [dictSet, List.lookup])
  · intro dt t d tid pid lb p
    cases d <;> cases pid <;> cases lb <;>
      (simp only [create_input, addKwargs]
       first
       | (split_ifs <;> simp_all [dictSet, List.lookup])
       | simp_all [dictSet, List.lookup])
  · intro dt t d tid pid lb
    cases d <;> cases pid <;> cases lb <;>
      (simp only [create_input, addKwargs]
       first
       | (split_ifs <;> simp_all [dictSet, List.lookup])
       | simp_all [dictSet, List.lookup])
  · intro dt t d tid pid pr lb kwargs
    simp only [create_input]
    exact addKwargs_filter_null kwargs _

/-- C2 counterexample: a 37-character token of 36 pattern characters plus a
trailing newline is neither UUID-shaped in the claimed sense nor a mapping
key, yet resolution returns it unchanged instead of failing, because the
Python dollar anchor also matches before a final newline. -/
theorem claim_C2_counterexample :
    resolve_state_id [] "000000000000000000000000000000000000\n" =
      Except.ok "000000000000000000000000000000000000\n" ∧
    uuid_shaped_spec "000000000000000000000000000000000000\n" = false ∧
    List.lookup "000000000000000000000000000000000000\n"
      ([] : List (String × String)) = Option.none :=
  ⟨rfl, by decide, rfl⟩

/-- C2 (amended): resolution returns the token unchanged whenever the
anchored regex matches it — 36 characters of hex digits and hyphens,
optionally followed by one trailing newline; a UUID-shaped token in the
claimed 36-character sense is in particular returned unchanged regardless of
the mapping contents; otherwise the mapping value is returned, and the
invalid-argument failure occurs if and only if the token neither matches the
regex nor is a key of the mapping. -/
theorem claim_C2_resolution (m : List (String × String)) (s : String) :
    (uuid_shaped_spec s = true → resolve_state_id m s = Except.ok s) ∧
    (reMatchUuid s = true → resolve_state_id m s = Except.ok s) ∧
    (reMatchUuid s = false → ∀ v, m.lookup s = Option.some v →
      resolve_state_id m s = Except.ok v) ∧
    ((∃ msg, resolve_state_id m s = Except.error msg) ↔
      (reMatchUuid s = false ∧ m.lookup s = Option.none)) := by
  refine ⟨?_, ?_, ?_, ?_⟩
  · intro h
    have hre : reMatchUuid s = true := by
      unfold reMatchUuid
      unfold uuid_shaped_spec at h
      rw [h, Bool.true_or]
    simp [resolve_state_id, hre]
  · intro h
    simp [resolve_state_id, h]
  · intro h v hv
    simp [resolve_state_id, h, hv]
  · unfold resolve_state_id
    cases h : reMatchUuid s
    · cases hv : m.lookup s <;> simp
    · simp

/-- C1 counterexample: a transition called with a supplied but empty
blocking-ticket list is classified status_changed, not blocked, because the
code tests Python truthiness of blocked_by rather than its presence. -/
theorem claim_C1_counterexample :
    (transition exMapping exNodes true true "T-1" "x" Option.none
        (Option.some [])).map (fun p => p.2.event_type) =
      Except.ok "status_changed" ∧
    ("status_changed" : String) ≠ "blocked" :=
  ⟨rfl, by decide⟩

/-- C1 (amended): for every successful call to transition, the event_type is
blocked when the target status is the literal token blocked or a non-empty
blocking-ticket list was supplied; else unblocked when the previously fetched
status was blocked and the target is not; else status_changed — where the
previous status is the status of the record fetched before the update. -/
theorem claim_C1_event_type (state_mapping : List (String × String))
    (nodes : List Issue) (uOk cOk : Bool) (tid to_status : String)
    (note : Option String) (blocked_by : Option (List String))
    (reqs : List Request) (res : TransitionResult)
    (h : transition state_mapping nodes uOk cOk tid to_status note blocked_by =
      Except.ok (reqs, res)) :
    (∃ prev, get nodes tid = Except.ok prev ∧ res.previous_status = prev.status) ∧
    res.event_type =
      (if to_status = "blocked" ∨ truthyOptList blocked_by = true then "blocked"
       else if res.previous_status = "blocked" ∧ to_status ≠ "blocked" then "unblocked"
       else "status_changed") := by
  unfold transition at h
  cases hg : get nodes tid with
  | error e => rw [hg] at h; exact absurd h (by simp)
  | ok current =>
    simp only [hg] at h
    cases hr : resolve_state_id state_mapping to_status with
    | error e => rw [hr] at h; exact absurd h (by simp)
    | ok sid =>
      simp only [hr] at h
      cases hu : update nodes uOk tid [("state_id", PyValue.str sid)] with
      | error e => rw [hu] at h; exact absurd h (by simp)
      | ok ureqs =>
        simp only [hu] at h
        cases hc : note_comment_reqs nodes cOk tid note with
        | error e => rw [hc] at h; exact absurd h (by simp)
        | ok creqs =>
          simp only [hc] at h
          injection h with h
          rw [Prod.mk.injEq] at h
          obtain ⟨hreqs, hres⟩ := h
          subst hres
          exact ⟨⟨current, rfl, rfl⟩,
            event_type_of_eq current.status to_status blocked_by⟩

/-- C1 witness: on the example data, a transition with no blocking list from
Backlog to the logical status x succeeds with event_type status_changed. -/
theorem claim_C1_witness :
    (∃ prev, get exNodes "T-1" = Except.ok prev ∧
      exRes.previous_status = prev.status) ∧
    exRes.event_type =
      (if "x" = "blocked" ∨ truthyOptList Option.none = true then "blocked"
       else if exRes.previous_status = "blocked" ∧ "x" ≠ "blocked" then "unblocked"
       else "status_changed") :=
  claim_C1_event_type exMapping exNodes true true "T-1" "x" Option.none Option.none
    exUpdateReqs exRes rfl

/-- C2 witness: a UUID-shaped token resolves to itself with an empty mapping,
a mapped logical name resolves to its mapping value, and an unmapped
non-UUID token fails. -/
theorem claim_C2_witness :
    resolve_state_id [] "12345678-1234-1234-1234-123456789abc" =
      Except.ok "12345678-1234-1234-1234-123456789abc" ∧
    resolve_state_id [("in_progress", "u-1")] "in_progress" = Except.ok "u-1" ∧
    (∃ msg, resolve_state_id [] "unknown" = Except.error msg) :=
  ⟨(claim_C2_resolution [] "12345678-1234-1234-1234-123456789abc").1 (by decide),
   (claim_C2_resolution [("in_progress", "u-1")] "in_progress").2.2.1 (by decide) "u-1" rfl,
   (claim_C2_resolution [] "unknown").2.2.2.mpr (by decide)⟩

end HerdTicketLinear
